import Mathlib

/-!
Shallow embedding of the Nav component (src/src/Nav.tsx) of this
react-bootstrap repository: the context resolver, the class-name
composer, the justify/navbar prop validator, the prop pass-through to
the list-rendering primitive (AbstractNav), and the
controlled/uncontrolled active-key resolver.
-/

/-- The `variant` prop: TypeScript type is the union of the literals
tabs and pills. -/
inductive Variant where
  | tabs
  | pills

/-- The string a `Variant` value interpolates to in a template literal. -/
def Variant.render : Variant → String
  | .tabs => "tabs"
  | .pills => "pills"

/-- Value supplied by `NavbarContext` (spec section 6: a navbar-hosting
context supplies its prefix string); Nav.tsx reads `navbarContext.bsPrefix`. -/
structure NavbarContextValue where
  bsPrefix : String

/-- Value supplied by `CardContext`; Nav.tsx reads
`cardContext.cardHeaderBsPrefix`. -/
structure CardContextValue where
  cardHeaderBsPrefix : String

/-- JavaScript template-literal interpolation of a possibly-undefined
string: an undefined value interpolates to the literal text undefined. -/
def jsOptStr : Option String → String
  | none => "undefined"
  | some s => s

/-- Template-literal interpolation of a possibly-undefined `variant`. -/
def jsVariantStr : Option Variant → String
  | none => "undefined"
  | some v => v.render

/-- JavaScript truthiness of a possibly-undefined string
(matching `!!x`: undefined and the empty string are falsy). -/
def truthyStr : Option String → Bool
  | none => false
  | some s => s != ""

/-- Modelled from the spec: the theme-prefix resolver
`useBootstrapPrefix` (from ThemeProvider, not present under src/) is a
pure deterministic function of an optional explicit prefix and a
component-kind default (spec section 6). -/
def useBootstrapPrefix (explicitPrefix : Option String) (componentKind : String) : String :=
  explicitPrefix.getD componentKind

/-- The three context-derived values computed by Nav.tsx lines 143-153:
`navbarBsPrefix`, `cardHeaderBsPrefix` (both start undefined) and
`isNavbar` (starts false). -/
structure ContextResolution where
  navbarBsPrefix : Option String
  cardHeaderBsPrefix : Option String
  isNavbar : Bool

/-- Nav.tsx lines 148-153:
`if (navbarContext) { navbarBsPrefix = navbarContext.bsPrefix; isNavbar = navbar == null ? true : navbar; }
else if (cardContext) { ({ cardHeaderBsPrefix } = cardContext); }`. -/
def resolveContext (navbarContext : Option NavbarContextValue)
    (cardContext : Option CardContextValue) (navbar : Option Bool) : ContextResolution :=
  match navbarContext with
  | some nc => ⟨some nc.bsPrefix, none, navbar.getD true⟩
  | none =>
    match cardContext with
    | some cc => ⟨none, some cc.cardHeaderBsPrefix, false⟩
    | none => ⟨none, none, false⟩

/-- The seven entries of the `classNames` object literal in Nav.tsx
lines 160-168, in source order, as (computed key, value) pairs: every
key is always present in the object, with exactly the source's value
expressions (`!isNavbar`, `isNavbar`, `isNavbar && navbarScroll`,
`!!cardHeaderBsPrefix`, `!!variant`, `fill`, `justify`). -/
def navClassPairs (bsPrefix : String) (r : ContextResolution) (variant : Option Variant)
    (fill justify : Bool) (navbarScroll : Option Bool) : List (String × Bool) :=
  [(bsPrefix, !r.isNavbar),
   (jsOptStr r.navbarBsPrefix ++ "-nav", r.isNavbar),
   (jsOptStr r.navbarBsPrefix ++ "-nav-scroll", r.isNavbar && navbarScroll.getD false),
   (jsOptStr r.cardHeaderBsPrefix ++ ("-" ++ jsVariantStr variant), truthyStr r.cardHeaderBsPrefix),
   (bsPrefix ++ ("-" ++ jsVariantStr variant), variant.isSome),
   (bsPrefix ++ "-fill", fill),
   (bsPrefix ++ "-justified", justify)]

/-- JavaScript object-literal duplicate-key semantics: the value of a
property is the LAST assignment to that key in source order. -/
def objValue (pairs : List (String × Bool)) (k : String) : Bool :=
  pairs.foldl (fun acc p => if k = p.1 then p.2 else acc) false

/-- JavaScript object-literal duplicate-key semantics: a duplicated key
keeps the position of its FIRST occurrence in property-insertion order. -/
def dedupKeysFirst : List String → List String
  | [] => []
  | k :: rest => k :: (dedupKeysFirst rest).filter (fun x => x != k)

/-- The classes the `classnames` library extracts from a JS object
literal given by its source-order computed entries: the keys in
first-occurrence order whose final (last-assigned) value is truthy. -/
def jsObjectClasses (pairs : List (String × Bool)) : List String :=
  (dedupKeysFirst (pairs.map Prod.fst)).filter (fun k => objValue pairs k)

/-- The conditional classes produced by the object argument of
`classNames` in Nav.tsx lines 160-168, with faithful JS object
semantics: a later entry whose computed key equals an earlier one
overwrites that key's value (so a falsy later slot can erase an earlier
truthy class), and the key keeps its first position. -/
def navClassList (bsPrefix : String) (r : ContextResolution) (variant : Option Variant)
    (fill justify : Bool) (navbarScroll : Option Bool) : List String :=
  jsObjectClasses (navClassPairs bsPrefix r variant fill justify navbarScroll)

/-- The `classnames` library joins its truthy arguments with single
spaces. -/
def joinClasses : List String → String
  | [] => ""
  | [c] => c
  | c :: rest => c ++ " " ++ joinClasses rest

/-- The full composed class string of Nav.tsx line 160:
`classNames(className, dots)` — the caller className token (if truthy)
followed by the conditional classes. -/
def composedClassName (className : Option String) (bsPrefix : String) (r : ContextResolution)
    (variant : Option Variant) (fill justify : Bool) (navbarScroll : Option Bool) : String :=
  joinClasses ((if truthyStr className then [jsOptStr className] else []) ++
    navClassList bsPrefix r variant fill justify navbarScroll)

/-- Nav.tsx lines 76-78, the `propTypes.justify` custom validator:
`justify && navbar ? Error(...) : null`. It reads only the two props;
it returns the error message exactly when both are truthy. -/
def justifyCheck (justify : Bool) (navbar : Option Bool) : Option String :=
  if justify && navbar.getD false then some "justify navbar `Nav`s are not supported" else none

/-- Modelled from the spec: the controlled/uncontrolled resolution of
`useUncontrolled` (the uncontrollable library, not present under src/):
the supplied value is used verbatim when present, otherwise the
internally held value (spec section 4.1). -/
def effectiveActiveKey {K : Type} (supplied internal : Option K) : Option K :=
  match supplied with
  | some v => some v
  | none => internal

/-- Modelled from the spec: the uncontrolled-mode run of
`useUncontrolled` (spec section 4.1) — the internal value starts at
`defaultActiveKey`, each selection event stores its key and, when a
notifier was supplied, also notifies it with that same key. Returns the
final stored value and the notification stream. -/
def runUncontrolled {K : Type} (defaultActiveKey : Option K) (hasNotifier : Bool)
    (events : List K) : Option K × List K :=
  events.foldl (fun acc ev => (some ev, acc.2 ++ if hasNotifier then [ev] else []))
    (defaultActiveKey, [])

/-- The configuration props recognized by the Nav composer (the
destructured names of Nav.tsx lines 125-136 plus `defaultActiveKey` and
`onSelect`, which `useUncontrolled` consumes or rewrites). -/
def recognizedNavKeys : List String :=
  ["as", "bsPrefix", "variant", "fill", "justify", "navbar", "navbarScroll",
   "className", "children", "activeKey", "defaultActiveKey", "onSelect"]

/-- The names removed from the rest-spread by the destructuring of
Nav.tsx lines 125-136 (`onSelect` and `defaultActiveKey` are not among
them: `useUncontrolled` already rewrote or removed those). -/
def navDestructuredKeys : List String :=
  ["as", "bsPrefix", "variant", "fill", "justify", "navbar", "navbarScroll",
   "className", "children", "activeKey"]

/-- Modelled from the spec: the prop bag returned by
`useUncontrolled(props, { activeKey: 'onSelect' })` — it removes
`defaultActiveKey`, replaces `activeKey` by the resolved effective value,
replaces `onSelect` by the wrapped handler, and leaves every other entry
untouched (spec sections 4.1 and 4.3). -/
def useUncontrolledProps {V : Type} (incoming : String → Option V)
    (internalActiveKey : Option V) (wrappedOnSelect : Option V) : String → Option V :=
  fun k =>
    if k = "defaultActiveKey" then none
    else if k = "activeKey" then effectiveActiveKey (incoming "activeKey") internalActiveKey
    else if k = "onSelect" then wrappedOnSelect
    else incoming k

/-- The prop bag the Nav render hands to AbstractNav (Nav.tsx lines
156-171): the JSX spreads `{...props}` (the rest after destructuring)
over the explicit attributes `as`, `activeKey` and `className`; a key
present in the rest wins over the explicit attributes, and the
destructured names can never be in the rest. -/
def navForwarded {V : Type} (incoming : String → Option V) (internalActiveKey : Option V)
    (wrappedOnSelect : Option V) (composedCls : V) (defaultAs : V) : String → Option V :=
  fun k =>
    match (if k ∈ navDestructuredKeys then none
           else useUncontrolledProps incoming internalActiveKey wrappedOnSelect k) with
    | some v => some v
    | none =>
      if k = "as" then some ((useUncontrolledProps incoming internalActiveKey wrappedOnSelect "as").getD defaultAs)
      else if k = "activeKey" then useUncontrolledProps incoming internalActiveKey wrappedOnSelect "activeKey"
      else if k = "className" then some composedCls
      else none

-- Sanity examples (spec section 8, scenarios 1 and 2).
example : navClassList "nav" (resolveContext none none none) (some .tabs) false false none
    = ["nav", "nav-tabs"] := rfl
example : navClassList "nav" (resolveContext (some ⟨"navbar"⟩) none none) none false false none
    = ["navbar-nav"] := rfl

-- String helper lemmas for distinguishing composed class names.

lemma rev_getElem_append (s t : String) (k : Nat) (c : Char)
    (h : t.data.reverse[k]? = some c) : (s ++ t).data.reverse[k]? = some c := by
  have hk : k < t.data.reverse.length := by
    rcases List.getElem?_eq_some.mp h with ⟨hlt, _⟩
    exact hlt
  rw [String.data_append, List.reverse_append, List.getElem?_append_left hk]
  exact h

lemma ne_of_rev_getElem (a b : String) (k : Nat) (c₁ c₂ : Char)
    (h₁ : a.data.reverse[k]? = some c₁) (h₂ : b.data.reverse[k]? = some c₂)
    (hne : c₁ ≠ c₂) : a ≠ b := by
  intro he
  subst he
  rw [h₁] at h₂
  exact hne (Option.some.inj h₂)

lemma append_suffix_ne (s u t v : String) (k : Nat) (c₁ c₂ : Char)
    (h₁ : t.data.reverse[k]? = some c₁) (h₂ : v.data.reverse[k]? = some c₂)
    (hne : c₁ ≠ c₂) : s ++ t ≠ u ++ v :=
  ne_of_rev_getElem _ _ k c₁ c₂ (rev_getElem_append s t k c₁ h₁)
    (rev_getElem_append u v k c₂ h₂) hne

lemma self_ne_append (s t : String) (h : 0 < t.length) : s ≠ s ++ t := by
  intro he
  have hl := congrArg String.length he
  rw [String.length_append] at hl
  omega

lemma mem_dedupKeysFirst (x : String) (l : List String) :
    x ∈ dedupKeysFirst l ↔ x ∈ l := by
  induction l with
  | nil => simp [dedupKeysFirst]
  | cons k rest ih =>
    simp only [dedupKeysFirst, List.mem_cons, List.mem_filter, ih, bne_iff_ne, ne_eq]
    constructor
    · rintro (h | ⟨h1, _⟩)
      · exact Or.inl h
      · exact Or.inr h1
    · rintro (h | h)
      · exact Or.inl h
      · by_cases hxk : x = k
        · exact Or.inl hxk
        · exact Or.inr ⟨h, hxk⟩

/-- Membership in the composed conditional class list: the string is one
of the seven computed keys and its final (last-assigned) value is
truthy. -/
lemma mem_navClassList (x bsP : String) (r : ContextResolution) (v : Option Variant)
    (f j : Bool) (s : Option Bool) :
    x ∈ navClassList bsP r v f j s ↔
      (x ∈ (navClassPairs bsP r v f j s).map Prod.fst ∧
        objValue (navClassPairs bsP r v f j s) x = true) := by
  unfold navClassList jsObjectClasses
  rw [List.mem_filter, mem_dedupKeysFirst]

lemma keys_navClassPairs (bsP : String) (r : ContextResolution) (v : Option Variant)
    (f j : Bool) (s : Option Bool) :
    (navClassPairs bsP r v f j s).map Prod.fst =
      [bsP, jsOptStr r.navbarBsPrefix ++ "-nav", jsOptStr r.navbarBsPrefix ++ "-nav-scroll",
       jsOptStr r.cardHeaderBsPrefix ++ ("-" ++ jsVariantStr v), bsP ++ ("-" ++ jsVariantStr v),
       bsP ++ "-fill", bsP ++ "-justified"] := rfl

/-- The final value the object literal assigns to a key: the last entry
in source order whose computed key equals it, else falsy. -/
lemma objValue_navClassPairs (bsP : String) (r : ContextResolution) (v : Option Variant)
    (f j : Bool) (s : Option Bool) (x : String) :
    objValue (navClassPairs bsP r v f j s) x =
      if x = bsP ++ "-justified" then j
      else if x = bsP ++ "-fill" then f
      else if x = bsP ++ ("-" ++ jsVariantStr v) then v.isSome
      else if x = jsOptStr r.cardHeaderBsPrefix ++ ("-" ++ jsVariantStr v) then truthyStr r.cardHeaderBsPrefix
      else if x = jsOptStr r.navbarBsPrefix ++ "-nav-scroll" then (r.isNavbar && s.getD false)
      else if x = jsOptStr r.navbarBsPrefix ++ "-nav" then r.isNavbar
      else if x = bsP then !r.isNavbar
      else false := rfl

lemma nav_key_ne_variant_key (a b : String) (v : Option Variant) :
    ¬(a ++ "-nav" = b ++ ("-" ++ jsVariantStr v)) := by
  rcases v with _ | vv
  · exact append_suffix_ne _ _ _ _ 0 'v' 'd' (by decide) (by decide) (by decide)
  · cases vv
    · exact append_suffix_ne _ _ _ _ 0 'v' 's' (by decide) (by decide) (by decide)
    · exact append_suffix_ne _ _ _ _ 0 'v' 's' (by decide) (by decide) (by decide)

lemma scroll_key_ne_variant_key (a b : String) (v : Option Variant) :
    ¬(a ++ "-nav-scroll" = b ++ ("-" ++ jsVariantStr v)) := by
  rcases v with _ | vv
  · exact append_suffix_ne _ _ _ _ 0 'l' 'd' (by decide) (by decide) (by decide)
  · cases vv
    · exact append_suffix_ne _ _ _ _ 0 'l' 's' (by decide) (by decide) (by decide)
    · exact append_suffix_ne _ _ _ _ 0 'l' 's' (by decide) (by decide) (by decide)

-- Claim theorems.

/-- Claim C1 (code bug evaluation): at the failing input — default theme
prefix, no navbar context, a card-header context with prefix
card-header, and no variant — the composed class set contains the class
card-header-undefined: the source's condition for the card-header class
slot is only the truthiness of the card-header prefix, so a missing
variant does not suppress the class (it interpolates as the literal
text undefined), contradicting the claim that the class is emitted only
when a variant is set. -/
theorem nav_cardHeader_class_emitted_without_variant :
    "card-header-undefined" ∈ navClassList (useBootstrapPrefix none "nav")
      (resolveContext none (some ⟨"card-header"⟩) none) none false false none := by
  decide

/-- Claim C2 counterexample: with `justify = true`, the `navbar` prop
unset, and a navbar context present, navbar hosting is inferred true,
yet the justify validator raises no error — so the claim that
`justify = true` with navbar hosting true (via explicit prop or
inferred context) always raises a ConfigurationError is false. -/
theorem nav_justify_contextOnly_no_error :
    (resolveContext (some ⟨"navbar"⟩) none none).isNavbar = true ∧
      justifyCheck true none = none :=
  ⟨rfl, rfl⟩

/-- Claim C2 amended: the validator raises the configuration error iff
the `justify` prop and the `navbar` prop are both true; the ambient
navbar context is never consulted by validation. -/
theorem nav_justify_check_iff_navbar_prop (justify : Bool) (navbar : Option Bool) :
    (justifyCheck justify navbar).isSome = (justify && navbar.getD false) := by
  rcases navbar with _ | b
  · cases justify <;> rfl
  · cases justify <;> cases b <;> rfl

/-- Claim C3 counterexample: with both ambient contexts present and the
`navbar` prop explicitly false, `isHostedInNavbar` is false — so the
claim that it is true on every render where both contexts are present
is false. -/
theorem nav_both_contexts_navbar_false :
    (resolveContext (some ⟨"navbar"⟩) (some ⟨"card-header"⟩) (some false)).isNavbar = false :=
  rfl

/-- Claim C3 amended: when both ambient contexts are present the navbar
context strictly dominates — the card-header context is never consulted
(the resolved card-header prefix stays unset, and the composed class
list is the same as if the card-header context were absent) — and
`isHostedInNavbar` equals the `navbar` prop when explicitly supplied,
defaulting to true. -/
theorem nav_navbarContext_dominates (nc : NavbarContextValue) (cc : CardContextValue)
    (nav : Option Bool) :
    resolveContext (some nc) (some cc) nav = ⟨some nc.bsPrefix, none, nav.getD true⟩ ∧
    (∀ (bsP : String) (v : Option Variant) (f j : Bool) (s : Option Bool),
      navClassList bsP (resolveContext (some nc) (some cc) nav) v f j s =
        navClassList bsP (resolveContext (some nc) none nav) v f j s) := by
  exact ⟨rfl, fun _ _ _ _ _ => rfl⟩

/-- Claim C6: `isHostedInNavbar` is true only when the navbar context is
present; when the context is present it equals the `navbar` prop when
explicitly supplied and defaults to true, and when the context is absent
it is false regardless of the `navbar` prop — all captured by one
equation. -/
theorem nav_isNavbar_derivation (nCtx : Option NavbarContextValue)
    (cCtx : Option CardContextValue) (navbar : Option Bool) :
    (resolveContext nCtx cCtx navbar).isNavbar = (nCtx.isSome && navbar.getD true) := by
  rcases nCtx with _ | nc
  · rcases cCtx with _ | cc <;> rfl
  · rfl

lemma dash_variant_len (v : Option Variant) : 0 < ("-" ++ jsVariantStr v).length := by
  rw [String.length_append]
  have h1 : ("-" : String).length = 1 := rfl
  omega

/-- Claim C4 counterexample: at the freestanding render with own theme
prefix undefined-tabs and variant tabs, the card slot's computed key
(the card-header prefix interpolating as the text undefined followed by
the variant) is also undefined-tabs, with a falsy value since no card
context is present; by JS duplicate-key overwrite it erases the base
entry, so the program emits NO base class at all — neither the own
prefix nor a navbar nav class — falsifying the claim's never-neither
part. -/
theorem nav_base_class_erased_by_duplicate_key :
    navClassList "undefined-tabs" (resolveContext none none none)
        (some Variant.tabs) false false none = ["undefined-tabs-tabs"] ∧
      "undefined-tabs" ∉ navClassList "undefined-tabs" (resolveContext none none none)
          (some Variant.tabs) false false none ∧
      (jsOptStr (resolveContext none none none).navbarBsPrefix ++ "-nav")
          ∉ navClassList "undefined-tabs" (resolveContext none none none)
            (some Variant.tabs) false false none := by
  refine ⟨by decide, by decide, by decide⟩

/-- Claim C4 amended: for every render whose own theme prefix does not
textually coincide with the navbar nav key, the navbar scroll key, or
the card slot key (a coincidence lets a later falsy duplicate object
entry erase the base class, as the counterexample shows), exactly one
base class appears in the composed class set — the navbar nav class and
not the own theme prefix when navbar-hosted, the own theme prefix and
not the navbar nav class when not — never both and never neither. -/
theorem nav_exactly_one_base_class (nCtx : Option NavbarContextValue)
    (cCtx : Option CardContextValue) (navProp : Option Bool) (bsP : String)
    (v : Option Variant) (f j : Bool) (s : Option Bool)
    (h1 : bsP ≠ jsOptStr (resolveContext nCtx cCtx navProp).navbarBsPrefix ++ "-nav")
    (h2 : bsP ≠ jsOptStr (resolveContext nCtx cCtx navProp).navbarBsPrefix ++ "-nav-scroll")
    (h3 : bsP ≠ jsOptStr (resolveContext nCtx cCtx navProp).cardHeaderBsPrefix ++ ("-" ++ jsVariantStr v)) :
    ((resolveContext nCtx cCtx navProp).isNavbar = true →
      (jsOptStr (resolveContext nCtx cCtx navProp).navbarBsPrefix ++ "-nav")
          ∈ navClassList bsP (resolveContext nCtx cCtx navProp) v f j s ∧
        bsP ∉ navClassList bsP (resolveContext nCtx cCtx navProp) v f j s) ∧
    ((resolveContext nCtx cCtx navProp).isNavbar = false →
      bsP ∈ navClassList bsP (resolveContext nCtx cCtx navProp) v f j s ∧
        (jsOptStr (resolveContext nCtx cCtx navProp).navbarBsPrefix ++ "-nav")
          ∉ navClassList bsP (resolveContext nCtx cCtx navProp) v f j s) := by
  have hbs : objValue (navClassPairs bsP (resolveContext nCtx cCtx navProp) v f j s) bsP
      = !(resolveContext nCtx cCtx navProp).isNavbar := by
    rw [objValue_navClassPairs]
    rw [if_neg (self_ne_append bsP "-justified" (by decide))]
    rw [if_neg (self_ne_append bsP "-fill" (by decide))]
    rw [if_neg (self_ne_append bsP ("-" ++ jsVariantStr v) (dash_variant_len v))]
    rw [if_neg h3, if_neg h2, if_neg h1, if_pos rfl]
  have hnav : objValue (navClassPairs bsP (resolveContext nCtx cCtx navProp) v f j s)
      (jsOptStr (resolveContext nCtx cCtx navProp).navbarBsPrefix ++ "-nav")
      = (resolveContext nCtx cCtx navProp).isNavbar := by
    rw [objValue_navClassPairs]
    rw [if_neg (append_suffix_ne _ _ _ _ 0 'v' 'd' (by decide) (by decide) (by decide))]
    rw [if_neg (append_suffix_ne _ _ _ _ 0 'v' 'l' (by decide) (by decide) (by decide))]
    rw [if_neg (nav_key_ne_variant_key _ _ v)]
    rw [if_neg (nav_key_ne_variant_key _ _ v)]
    rw [if_neg (append_suffix_ne _ _ _ _ 0 'v' 'l' (by decide) (by decide) (by decide))]
    rw [if_pos rfl]
  constructor
  · intro hn
    refine ⟨?_, ?_⟩
    · rw [mem_navClassList, keys_navClassPairs]
      refine ⟨by simp, ?_⟩
      rw [hnav]
      exact hn
    · intro hmem
      rw [mem_navClassList] at hmem
      have hv2 := hmem.2
      rw [hbs, hn] at hv2
      simp at hv2
  · intro hn
    refine ⟨?_, ?_⟩
    · rw [mem_navClassList, keys_navClassPairs]
      refine ⟨by simp, ?_⟩
      rw [hbs, hn]
      rfl
    · intro hmem
      rw [mem_navClassList] at hmem
      have hv2 := hmem.2
      rw [hnav, hn] at hv2
      simp at hv2

/-- Witness for claim C4 at a concrete navbar-hosted render, discharging
the three non-coincidence hypotheses. -/
theorem nav_exactly_one_base_class_witness :
    ("nav" : String) ≠ "navbar-nav" ∧ ("nav" : String) ≠ "navbar-nav-scroll" ∧
      ("nav" : String) ≠ "undefined-undefined" ∧
      ("navbar-nav" ∈ navClassList "nav" (resolveContext (some ⟨"navbar"⟩) none none)
          none false false none ∧
        "nav" ∉ navClassList "nav" (resolveContext (some ⟨"navbar"⟩) none none)
          none false false none) := by
  refine ⟨by decide, by decide, by decide, ?_⟩
  exact (nav_exactly_one_base_class (some ⟨"navbar"⟩) none none "nav" none false false none
    (by decide) (by decide) (by decide)).1 rfl

/-- Claim C5: the navbar scroll class appears in the composed class set
iff the component is navbar-hosted and `navbarScroll` is true (stated
for own prefixes that do not alias the scroll class name). -/
theorem nav_scroll_class_iff (nCtx : Option NavbarContextValue)
    (cCtx : Option CardContextValue) (navProp : Option Bool) (bsP : String)
    (v : Option Variant) (f j : Bool) (s : Option Bool)
    (h : bsP ≠ jsOptStr (resolveContext nCtx cCtx navProp).navbarBsPrefix ++ "-nav-scroll") :
    (jsOptStr (resolveContext nCtx cCtx navProp).navbarBsPrefix ++ "-nav-scroll")
        ∈ navClassList bsP (resolveContext nCtx cCtx navProp) v f j s ↔
      ((resolveContext nCtx cCtx navProp).isNavbar = true ∧ s.getD false = true) := by
  have hval : objValue (navClassPairs bsP (resolveContext nCtx cCtx navProp) v f j s)
      (jsOptStr (resolveContext nCtx cCtx navProp).navbarBsPrefix ++ "-nav-scroll")
      = ((resolveContext nCtx cCtx navProp).isNavbar && s.getD false) := by
    rw [objValue_navClassPairs]
    rw [if_neg (append_suffix_ne _ _ _ _ 0 'l' 'd' (by decide) (by decide) (by decide))]
    rw [if_neg (append_suffix_ne _ _ _ _ 2 'o' 'i' (by decide) (by decide) (by decide))]
    rw [if_neg (scroll_key_ne_variant_key _ _ v)]
    rw [if_neg (scroll_key_ne_variant_key _ _ v)]
    rw [if_pos rfl]
  rw [mem_navClassList, keys_navClassPairs, hval]
  constructor
  · rintro ⟨-, hv2⟩
    simpa using hv2
  · rintro ⟨hn, hs⟩
    refine ⟨by simp, ?_⟩
    rw [hn, hs]
    rfl

/-- Witness for claim C5 at a concrete navbar-hosted render with
`navbarScroll = true`. -/
theorem nav_scroll_class_iff_witness :
    ("nav" : String) ≠ "navbar-nav-scroll" ∧
      "navbar-nav-scroll" ∈ navClassList "nav" (resolveContext (some ⟨"navbar"⟩) none none)
        none false false (some true) := by
  refine ⟨by decide, ?_⟩
  exact (nav_scroll_class_iff (some ⟨"navbar"⟩) none none "nav" none false false (some true)
    (by decide)).mpr ⟨rfl, rfl⟩

/-- Claim C10: a caller-supplied (non-empty) `className` is always
preserved verbatim at the front of the composed class string, and every
structurally derived class (the whole derived composition) follows it —
in addition to it, never instead of it. When the derived class set is
empty (possible through JS duplicate-key erasure of every truthy slot),
the composed string is the className alone. -/
theorem nav_className_preserved (c bsP : String) (r : ContextResolution) (v : Option Variant)
    (f j : Bool) (s : Option Bool) (h : c ≠ "") :
    composedClassName (some c) bsP r v f j s
      = c ++ (if navClassList bsP r v f j s = [] then ""
              else " " ++ composedClassName none bsP r v f j s) := by
  have htr : truthyStr (some c) = true := by
    simpa [truthyStr] using h
  have lhs : composedClassName (some c) bsP r v f j s
      = joinClasses (c :: navClassList bsP r v f j s) := by
    unfold composedClassName
    rw [htr]
    rfl
  rw [lhs]
  rcases hL : navClassList bsP r v f j s with _ | ⟨a, L⟩
  · rw [if_pos rfl]
    show c = c ++ ""
    exact (String.append_empty c).symm
  · have hnone : composedClassName none bsP r v f j s = joinClasses (a :: L) := by
      show joinClasses (navClassList bsP r v f j s) = joinClasses (a :: L)
      rw [hL]
    rw [if_neg (List.cons_ne_nil a L), hnone]
    show c ++ " " ++ joinClasses (a :: L) = c ++ (" " ++ joinClasses (a :: L))
    exact String.append_assoc c " " (joinClasses (a :: L))

/-- Witness for claim C10 at a concrete freestanding render with a
custom className. -/
theorem nav_className_preserved_witness :
    ("custom" : String) ≠ "" ∧
      composedClassName (some "custom") "nav" (resolveContext none none none) none false false none
        = "custom" ++ (if navClassList "nav" (resolveContext none none none) none false false none = []
            then ""
            else " " ++ composedClassName none "nav" (resolveContext none none none)
              none false false none) :=
  ⟨by decide, nav_className_preserved "custom" "nav" (resolveContext none none none)
    none false false none (by decide)⟩

/-- Claim C7: every incoming prop whose name is not among the recognized
configuration props appears unchanged, under the same name and with the
same value, in the prop bag forwarded to AbstractNav. -/
theorem nav_unrecognized_prop_passthrough {V : Type} (incoming : String → Option V)
    (internalActiveKey wrappedOnSelect : Option V) (composedCls defaultAs : V) (k : String)
    (h : k ∉ recognizedNavKeys) :
    navForwarded incoming internalActiveKey wrappedOnSelect composedCls defaultAs k
      = incoming k := by
  simp only [recognizedNavKeys, List.mem_cons, List.not_mem_nil, or_false] at h
  push_neg at h
  obtain ⟨ha, hb, hv, hf, hj, hn, hs, hc, hch, hak, hdak, hos⟩ := h
  rcases hik : incoming k with _ | val <;>
    simp [navForwarded, useUncontrolledProps, navDestructuredKeys, List.mem_cons,
      ha, hb, hv, hf, hj, hn, hs, hc, hch, hak, hdak, hos, hik]

/-- Witness for claim C7: the `role` prop is not recognized and is
forwarded verbatim. -/
theorem nav_unrecognized_prop_passthrough_witness :
    ("role" : String) ∉ recognizedNavKeys ∧
      navForwarded (fun k => if k = "role" then (some "tablist" : Option String) else none)
        none none "navcls" "div" "role" = some "tablist" := by
  refine ⟨by decide, ?_⟩
  exact nav_unrecognized_prop_passthrough
    (fun k => if k = "role" then (some "tablist" : Option String) else none)
    none none "navcls" "div" "role" (by decide)

/-- Claim C8: in controlled mode (an `activeKey` prop is supplied), the
active key forwarded to AbstractNav equals the supplied value verbatim,
regardless of any internally held state. -/
theorem nav_controlled_activeKey_verbatim {V : Type} (incoming : String → Option V)
    (internalActiveKey wrappedOnSelect : Option V) (composedCls defaultAs : V) (val : V)
    (h : incoming "activeKey" = some val) :
    navForwarded incoming internalActiveKey wrappedOnSelect composedCls defaultAs "activeKey"
      = some val := by
  simp [navForwarded, useUncontrolledProps, effectiveActiveKey, navDestructuredKeys, h]

/-- Witness for claim C8: a supplied active key home is forwarded
verbatim even though the internal state holds a different value. -/
theorem nav_controlled_activeKey_verbatim_witness :
    (fun k : String => if k = "activeKey" then (some "home" : Option String) else none)
        "activeKey" = some "home" ∧
      navForwarded (fun k : String => if k = "activeKey" then (some "home" : Option String) else none)
        (some "stale") none "navcls" "div" "activeKey" = some "home" :=
  ⟨rfl, nav_controlled_activeKey_verbatim _ (some "stale") none "navcls" "div" "home" rfl⟩

lemma runUncontrolled_foldl_characterization {K : Type} (hasNotifier : Bool) :
    ∀ (events : List K) (st : Option K) (acc : List K),
      events.foldl (fun a ev => (some ev, a.2 ++ if hasNotifier then [ev] else [])) (st, acc)
        = (events.getLast?.elim st some, acc ++ if hasNotifier then events else []) := by
  intro events
  induction events with
  | nil =>
    intro st acc
    cases hasNotifier <;> simp [Option.elim]
  | cons e es ih =>
    intro st acc
    rw [List.foldl_cons, ih]
    cases es with
    | nil => cases hasNotifier <;> simp [Option.elim]
    | cons b l =>
      rw [List.getLast?_cons_cons]
      rcases hbl : (b :: l).getLast? with _ | x
      · exact absurd (List.getLast?_eq_none_iff.mp hbl) (by simp)
      · cases hasNotifier <;> simp [hbl, Option.elim]

/-- Claim C9: in uncontrolled mode the stored key starts at
`defaultActiveKey` (kept when no event arrives), after the events the
stored key is the key of the last event (applying this to every prefix
of an event stream: after event n the stored key is the key of
event n), and the notifier, when supplied, receives exactly the same
stream of keys. -/
theorem nav_uncontrolled_selection_echo {K : Type} (defaultActiveKey : Option K)
    (hasNotifier : Bool) (events : List K) :
    runUncontrolled defaultActiveKey hasNotifier events
      = (events.getLast?.elim defaultActiveKey some, if hasNotifier then events else []) := by
  unfold runUncontrolled
  rw [runUncontrolled_foldl_characterization]
  simp
